import Mathlib

/-!
# Lionel train card: a shallow embedding of `lionel-train-card.js`

The two custom elements of `custom_components/lionel_controller/www/lionel-train-card.js`
(`LionelTrainCard` and `LionelTrainCardEditor`) are embedded as pure functions over explicit
state records.

Conventions of the embedding:

* a JavaScript string is a `List Char`; every pattern the card searches for is ASCII, so
  searching by code point or by UTF-16 code unit finds the same occurrences;
* a method is a function from the element's state to the state it leaves behind together with
  a `Completion` (normal return, or the error it throws); a `throw` keeps every write that
  happened before it;
* the rendered surface is a record with one field per DOM node the script reads or writes;
  a surface that has not been rendered yet is `none`, and looking a node up in it yields
  `null`, so that writing to it throws a `TypeError`;
* a Number is an IEEE-754 double, held by its sign, mantissa and binary exponent:
  `parseFloat` and `parseInt` round the value of the numeral they read to the nearest
  double, and `Number::toString` prints the shortest digits that read back as the double;
* the slider `#throttle` is the range input of the markup, `min="0" max="100"` with the
  default step 1: its value is one of `0, …, 100`, and a value a script assigns to it goes
  through the value sanitization of the HTML standard.
-/

namespace LionelCard

/-! ## Strings -/

/-- A JavaScript string. -/
abbrev JSString := List Char

/-- The abstract operation `StringIndexOf(string, searchValue, 0)` of ECMAScript:
the smallest index at which `pat` occurs in `s`, if there is one. -/
def stringIndexOf (pat : JSString) : JSString → Option Nat
  | [] => if pat.isPrefixOf [] then some 0 else none
  | c :: cs =>
    if pat.isPrefixOf (c :: cs) then some 0
    else (stringIndexOf pat cs).map (· + 1)

/-- The method `String.prototype.replace(searchValue, replaceValue)` for a string
`searchValue`: the first occurrence of `pat` is replaced by `rep`, and a string without an
occurrence is returned as it is.  (The `$` patterns of `replaceValue` are not expanded;
the card only replaces by the empty string.) -/
def replace (s pat rep : JSString) : JSString :=
  match stringIndexOf pat s with
  | none => s
  | some pos => s.take pos ++ rep ++ s.drop (pos + pat.length)

/-- Conversion of a possibly undefined string inside a template literal. -/
def templateString : Option JSString → JSString
  | some s => s
  | none => "undefined".toList

/-- The expression `a || b` for a possibly undefined string `a` and a string `b`. -/
def orElse (a : Option JSString) (b : JSString) : JSString :=
  match a with
  | none => b
  | some [] => b
  | some (c :: cs) => c :: cs

/-! ## Numbers -/

/-- A Number, that is an IEEE-754 double: `NaN`, an infinity, the negative zero, or the
finite value `± mantissa * 2 ^ exponent` (the positive zero has mantissa 0). -/
inductive JSNumber where
  | nan
  | posInf
  | negInf
  | negZero
  | fin (neg : Bool) (mantissa : Nat) (exponent : ℤ)
  deriving DecidableEq

/-- A Number in the range of `parseInt` and `Math.round`: `NaN`, an infinity, the negative
zero, or an integer that is a double. -/
inductive JSIntegral where
  | nan
  | posInf
  | negInf
  | negZero
  | int (n : ℤ)
  deriving DecidableEq

/-- The Number `0`. -/
def JSNumber.zero : JSNumber := .fin false 0 0

/-- The outcome of rounding a non-negative real to a double: zero, a value beyond the
finite doubles, or `mantissa * 2 ^ exponent`. -/
inductive Rounded where
  | zero
  | overflow
  | finite (mantissa : Nat) (exponent : ℤ)
  deriving DecidableEq

/-- The position of the highest set bit of `n`, on `fuel` many halvings. -/
def log2Aux : Nat → Nat → Nat
  | 0, _ => 0
  | fuel + 1, n => if n < 2 then 0 else log2Aux fuel (n / 2) + 1

/-- The floor of the binary logarithm (`0` for `0`). -/
def log2Floor (n : Nat) : Nat := log2Aux n n

/-- The Number value of the non-negative rational `num / den`: the nearest double, a tie
going to the even mantissa.  With `2 ^ e ≤ num / den < 2 ^ (e + 1)` the doubles around it are
the multiples of `2 ^ p` for `p = max (e - 52) (-1074)`; a result of `2 ^ 1024` or more is
beyond the finite doubles. -/
def roundToDouble (num den : Nat) : Rounded :=
  if num = 0 then .zero
  else
    let e0 : ℤ := (log2Floor num : ℤ) - (log2Floor den : ℤ)
    let e : ℤ := if den * 2 ^ e0.toNat ≤ num * 2 ^ (-e0).toNat then e0 else e0 - 1
    let p : ℤ := if e - 52 < -1074 then -1074 else e - 52
    let n := num * 2 ^ (-p).toNat
    let d := den * 2 ^ p.toNat
    let fl := n / d
    let twice := 2 * (n % d)
    let m :=
      if twice < d then fl
      else if d < twice then fl + 1
      else if fl % 2 = 0 then fl else fl + 1
    if m = 0 then .zero
    else if 971 < p ∨ (p = 971 ∧ 2 ^ 53 ≤ m) then .overflow
    else .finite m p

/-- The integer a rounded integer is, `none` beyond the finite doubles. -/
def Rounded.toNat : Rounded → Option Nat
  | .zero => some 0
  | .overflow => none
  | .finite m p => some (m * 2 ^ p.toNat / 2 ^ (-p).toNat)

/-- The Number value of a natural number, as an integer. -/
def roundNat (n : Nat) : Option Nat := (roundToDouble n 1).toNat

/-- The code points of `WhiteSpace` and `LineTerminator`, which `parseFloat` and `parseInt`
skip at the start of their argument. -/
def isStrWhiteSpaceChar (c : Char) : Bool :=
  c.toNat ∈ [0x9, 0xA, 0xB, 0xC, 0xD, 0x20, 0xA0, 0x1680, 0x2028, 0x2029, 0x202F, 0x205F,
    0x3000, 0xFEFF] || (0x2000 ≤ c.toNat && c.toNat ≤ 0x200A)

/-- The string without its leading white space. -/
def trimStart (s : JSString) : JSString := s.dropWhile isStrWhiteSpaceChar

/-- Reads an optional sign: whether it was `-`, and the rest of the string. -/
def stripSign : JSString → Bool × JSString
  | [] => (false, [])
  | c :: r => if c = '-' then (true, r) else if c = '+' then (false, r) else (false, c :: r)

/-- The value of a digit in radix 36 (`36` for a character that is not a digit). -/
def digitValue (c : Char) : Nat :=
  if c.isDigit then c.toNat - 48
  else if c.isLower then c.toNat - 87
  else if c.isUpper then c.toNat - 55
  else 36

/-- The integer a string of digits denotes in the given radix. -/
def radixValue (radix : Nat) (ds : JSString) : Nat :=
  ds.foldl (fun acc c => radix * acc + digitValue c) 0

/-- The value of an `ExponentPart` at the start of the string, `0` when there is none
(an `e` that no digit follows is not an exponent part). -/
def exponentPart : JSString → ℤ
  | [] => 0
  | c :: r =>
    if c = 'e' ∨ c = 'E' then
      let signed := stripSign r
      let digits := signed.2.takeWhile Char.isDigit
      if signed.1 then -(radixValue 10 digits : ℤ) else (radixValue 10 digits : ℤ)
    else 0

/-- The longest prefix of a trimmed string that is a `StrDecimalLiteral`: none, a signed
`Infinity`, or a signed decimal numeral `mantissa * 10 ^ exponent`. -/
inductive StrDecimalLiteral where
  | none
  | infinity (neg : Bool)
  | decimal (neg : Bool) (mantissa : Nat) (exponent : ℤ)
  deriving DecidableEq

/-- Scanning for the longest `StrDecimalLiteral` prefix, after the leading white space. -/
def scanStrDecimalLiteral (s : JSString) : StrDecimalLiteral :=
  let signed := stripSign (trimStart s)
  let u := signed.2
  if "Infinity".toList.isPrefixOf u then .infinity signed.1
  else
    let intDigits := u.takeWhile Char.isDigit
    let afterInt := u.dropWhile Char.isDigit
    let frac : JSString × JSString :=
      match afterInt with
      | [] => ([], [])
      | c :: r =>
        if c = '.' then (r.takeWhile Char.isDigit, r.dropWhile Char.isDigit) else ([], c :: r)
    if intDigits = [] ∧ frac.1 = [] then .none
    else .decimal signed.1 (radixValue 10 (intDigits ++ frac.1))
      (exponentPart frac.2 - (frac.1.length : ℤ))

/-- The function `parseFloat`: the Number value of the literal it reads. -/
def parseFloat (s : JSString) : JSNumber :=
  match scanStrDecimalLiteral s with
  | .none => .nan
  | .infinity neg => if neg then .negInf else .posInf
  | .decimal neg m e =>
    match roundToDouble (m * 10 ^ e.toNat) (10 ^ (-e).toNat) with
    | .zero => if neg then .negZero else .zero
    | .overflow => if neg then .negInf else .posInf
    | .finite mantissa exponent => .fin neg mantissa exponent

/-- What follows a leading `0x` or `0X`, when the string has one. -/
def afterHexMark : JSString → Option JSString
  | c :: d :: r => if c = '0' ∧ (d = 'x' ∨ d = 'X') then some r else none
  | _ => none

/-- The function `parseInt` without a radix argument: decimal, or hexadecimal after a
`0x` or `0X`; `NaN` when no digit is read, and else the Number value of the integer. -/
def parseInt (s : JSString) : JSIntegral :=
  let signed := stripSign (trimStart s)
  let hex := afterHexMark signed.2
  let radix : Nat := if hex.isSome then 16 else 10
  let body : JSString := hex.getD signed.2
  let z := body.takeWhile (fun c => decide (digitValue c < radix))
  if z = [] then .nan
  else
    match roundNat (radixValue radix z) with
    | none => if signed.1 then .negInf else .posInf
    | some 0 => if signed.1 then .negZero else .int 0
    | some (n + 1) => .int (if signed.1 then -((n + 1 : Nat) : ℤ) else ((n + 1 : Nat) : ℤ))

/-- The expression `x || 0` for a Number `x`: `NaN` and the zeros are falsy. -/
def orZero : JSNumber → JSNumber
  | .nan => .zero
  | .posInf => .posInf
  | .negInf => .negInf
  | .negZero => .zero
  | .fin neg m p => if m = 0 then .zero else .fin neg m p

/-- The integer `⌊x + 1/2⌋` for `x = ± m * 2 ^ p`: the nearest integer, a tie going towards
`+∞`. -/
def roundHalfUp (neg : Bool) (m : Nat) (p : ℤ) : ℤ :=
  if 0 ≤ p then
    if neg then -((m * 2 ^ p.toNat : Nat) : ℤ) else ((m * 2 ^ p.toNat : Nat) : ℤ)
  else
    let k := (-p).toNat
    if neg then
      if 2 * m ≤ 2 ^ k then 0
      else -(((2 * m - 2 ^ k + 2 ^ (k + 1) - 1) / 2 ^ (k + 1) : Nat) : ℤ)
    else (((2 * m + 2 ^ k) / 2 ^ (k + 1) : Nat) : ℤ)

/-- The function `Math.round`: the nearest integer, a tie going towards `+∞`; the result
is `-0` for `-0` and for the values from `-0.5` up to zero. -/
def mathRound : JSNumber → JSIntegral
  | .nan => .nan
  | .posInf => .posInf
  | .negInf => .negInf
  | .negZero => .negZero
  | .fin neg m p =>
    if neg = true ∧ m ≠ 0 ∧ roundHalfUp neg m p = 0 then .negZero
    else .int (roundHalfUp neg m p)

/-- An integer brought into the range of the slider, `0` to `100`. -/
def clampRange (n : ℤ) : Fin 101 := ⟨min n.toNat 100, Nat.lt_succ_of_le (Nat.min_le_right _ _)⟩

/-- The value a range input with `min="0"`, `max="100"` and the default step `1` takes when
a script assigns the Number `x` to its `value` (the value sanitization of the HTML
standard): a finite `x` below the minimum gives the minimum, one above the maximum gives the
maximum, one in between is rounded to the nearest step, a tie going towards `+∞`; the
string of a non-finite `x` is no floating-point number and gives the default value, the
middle of the range. -/
def rangeValue : JSNumber → Fin 101
  | .nan => 50
  | .posInf => 50
  | .negInf => 50
  | .negZero => 0
  | .fin neg m p => clampRange (roundHalfUp neg m p)

/-- The decimal digit for a number below ten. -/
def digitChar (d : Nat) : Char := Char.ofNat (48 + d)

/-- The digits of `n` pushed in front of `acc`, most significant first. -/
def toDigitsAux : Nat → Nat → JSString → JSString
  | 0, _, acc => acc
  | fuel + 1, n, acc =>
    if n < 10 then digitChar n :: acc
    else toDigitsAux fuel (n / 10) (digitChar (n % 10) :: acc)

/-- The decimal numeral of a natural number. -/
def decimalDigits (n : Nat) : JSString := toDigitsAux (n + 1) n []

/-- For a positive integer `x` of `d` decimal digits that is a double: the pair `(s, n)`
with `s` of `k` digits such that `s * 10 ^ (n - k)` has the Number value `x`, if there is
one; of two such `s` the one nearest to `x`, and the even one when they are as near. -/
def digitsCandidate (x d k : Nat) : Option (Nat × Nat) :=
  if d < k then none
  else
    let u := 10 ^ (d - k)
    let lo := x / u
    let hi := lo + 1
    let okLo : Bool := decide (roundNat (lo * u) = some x)
    let okHi : Bool := decide (roundNat (hi * u) = some x)
    let hiPair : Nat × Nat := if hi = 10 ^ k then (10 ^ (k - 1), d + 1) else (hi, d)
    if okLo && okHi then
      if x - lo * u < hi * u - x then some (lo, d)
      else if hi * u - x < x - lo * u then some hiPair
      else if lo % 2 = 0 then some (lo, d) else some hiPair
    else if okLo then some (lo, d)
    else if okHi then some hiPair
    else none

/-- The integers `s` and `n` of `Number::toString`: the shortest `s`, of `k` digits, such
that `s * 10 ^ (n - k)` has the Number value `x` (17 digits always suffice). -/
def shortestDigits (x : Nat) : Nat × Nat :=
  let d := (decimalDigits x).length
  ((List.range 17).findSome? (fun i => digitsCandidate x d (i + 1))).getD (x, d)

/-- The operation `Number::toString` in radix 10 on a non-negative integer that is a
double: the digits of `s` followed by `n - k` zeros up to `n = 21`, and the exponent form
`d.ddde+(n - 1)` from there on. -/
def natToString (x : Nat) : JSString :=
  let sn := shortestDigits x
  let digits := decimalDigits sn.1
  let n := sn.2
  if n ≤ 21 then digits ++ List.replicate (n - digits.length) '0'
  else
    match digits with
    | [] => []
    | [d] => d :: 'e' :: '+' :: decimalDigits (n - 1)
    | d :: rest => d :: '.' :: rest ++ 'e' :: '+' :: decimalDigits (n - 1)

/-- The string a template literal makes of an integral Number. -/
def numberToString : JSIntegral → JSString
  | .nan => "NaN".toList
  | .posInf => "Infinity".toList
  | .negInf => "-Infinity".toList
  | .negZero => "0".toList
  | .int (.ofNat n) => natToString n
  | .int (.negSucc n) => '-' :: natToString (n + 1)

/-! ## Values shared by the two elements -/

/-- An error a method throws: the `Error` with its message, or a `TypeError` raised by an
access through `undefined` or `null`. -/
inductive JSError where
  | error (message : JSString)
  | typeError
  deriving DecidableEq

/-- How a method or a listener ends. -/
inductive Completion where
  | normal
  | throw (e : JSError)
  deriving DecidableEq

/-- A card configuration: the two fields the elements read, each absent or a string, and
the remaining own properties (such as the `type` the dashboard adds) as key and value
pairs. -/
structure Config where
  entity : Option JSString
  name : Option JSString
  rest : List (JSString × JSString)
  deriving DecidableEq

/-- The token list of an element with `token` added (`DOMTokenList.add`). -/
def classListAdd (classes : List JSString) (token : JSString) : List JSString :=
  if token ∈ classes then classes else classes ++ [token]

/-- The token list of an element with `token` removed (`DOMTokenList.remove`). -/
def classListRemove (classes : List JSString) (token : JSString) : List JSString :=
  classes.filter (· ≠ token)

/-! ## The host -/

/-- A state object of the host: its `state` string. -/
structure EntityState where
  state : JSString
  deriving DecidableEq

/-- The host object `hass`: the snapshot `hass.states`, from entity id to state object.
Its method `callService` is modelled by the log `LionelTrainCard.calls`. -/
structure Hass where
  states : JSString → Option EntityState

/-- One call of `hass.callService(domain, service, data)`, with the fields of `data`. -/
structure ServiceCall where
  domain : JSString
  service : JSString
  entity_id : JSString
  value : Option JSIntegral
  deriving DecidableEq

/-! ## The card -/

/-- The nodes of the card markup that carry a listener. -/
inductive Control where
  | throttle
  | btnStop
  | btnForward
  | btnReverse
  | btnLights
  | btnHorn
  | btnBell
  | btnDisconnect
  deriving DecidableEq

/-- The event types the card listens to. -/
inductive EventType where
  | input
  | click
  deriving DecidableEq

/-- The arrow functions `_setupEventListeners` registers. -/
inductive Listener where
  /-- The function `(e) => { this._setThrottle(parseInt(e.target.value)); }`. -/
  | throttleInput
  /-- The function that presses `stop` and resets the slider and the label. -/
  | stopClick
  /-- The function `() => this._pressButton(action)`. -/
  | pressButton (action : JSString)
  /-- The function `() => this._toggleSwitch(action)`. -/
  | toggleSwitch (action : JSString)
  deriving DecidableEq

/-- The shadow tree `_render` builds, reduced to what the script reads and writes: the text
of the title, the text and `className` of `#status`, the class list of `.card`, the text of
`#speed-display`, the value of the slider `#throttle` (a range input from 0 to 100 in
steps of 1, so one of `0, …, 100`), the class list of `#btn-lights`, and the listeners
registered on its nodes.  The configured name is taken as text. -/
structure Surface where
  title : JSString
  statusText : JSString
  statusClass : JSString
  cardClasses : List JSString
  speedDisplay : JSString
  throttleValue : Fin 101
  lightsClasses : List JSString
  listeners : List (Control × EventType × Listener)
  deriving DecidableEq

/-- The tree the markup of `_render` parses to, before any listener is registered. -/
def Surface.markup (title : JSString) : Surface where
  title := title
  statusText := "Disconnected".toList
  statusClass := "status disconnected".toList
  cardClasses := ["card".toList]
  speedDisplay := "0%".toList
  throttleValue := 0
  lightsClasses := ["control-btn".toList]
  listeners := []

/-- The method `addEventListener` on a node of the surface. -/
def Surface.addEventListener (sf : Surface) (target : Control) (type : EventType)
    (l : Listener) : Surface :=
  { sf with listeners := sf.listeners ++ [(target, type, l)] }

/-- An instance of `LionelTrainCard`: its three fields, its shadow root (`none` while
nothing has been rendered into it), and the calls the host has received from it. -/
structure LionelTrainCard where
  _hass : Option Hass
  _config : Option Config
  _entityBase : Option JSString
  shadowRoot : Option Surface
  calls : List ServiceCall

namespace LionelTrainCard

/-- The card right after its constructor. -/
def new : LionelTrainCard where
  _hass := none
  _config := none
  _entityBase := none
  shadowRoot := none
  calls := []

/-- The method `_getEntityId(suffix)`. -/
def _getEntityId (c : LionelTrainCard) (suffix : JSString) : JSString :=
  templateString c._entityBase ++ "_".toList ++ suffix

/-- The method `_setupEventListeners()`: the eight nodes are looked up and each gets one
listener; on an empty shadow root the first registration throws. -/
def _setupEventListeners (c : LionelTrainCard) : LionelTrainCard × Completion :=
  match c.shadowRoot with
  | none => (c, .throw .typeError)
  | some sf =>
    let sf := sf.addEventListener .throttle .input .throttleInput
    let sf := sf.addEventListener .btnStop .click .stopClick
    let sf := sf.addEventListener .btnForward .click (.pressButton "forward".toList)
    let sf := sf.addEventListener .btnReverse .click (.pressButton "reverse".toList)
    let sf := sf.addEventListener .btnLights .click (.toggleSwitch "lights".toList)
    let sf := sf.addEventListener .btnHorn .click (.pressButton "horn".toList)
    let sf := sf.addEventListener .btnBell .click (.pressButton "bell".toList)
    let sf := sf.addEventListener .btnDisconnect .click (.pressButton "disconnect".toList)
    ({ c with shadowRoot := some sf }, .normal)

/-- The method `_render()`: the shadow root gets the markup, titled
`this._config.name || 'Lionel Train'`, in place of what it held, and the listeners are
registered on the new nodes. -/
def _render (c : LionelTrainCard) : LionelTrainCard × Completion :=
  match c._config with
  | none => (c, .throw .typeError)
  | some config =>
    _setupEventListeners
      { c with shadowRoot := some (Surface.markup (orElse config.name "Lionel Train".toList)) }

/-- The method `setConfig(config)`. -/
def setConfig (c : LionelTrainCard) (config : Config) : LionelTrainCard × Completion :=
  match config.entity with
  | none =>
    (c, .throw (.error "You need to define an entity (the throttle number entity)".toList))
  | some [] =>
    (c, .throw (.error "You need to define an entity (the throttle number entity)".toList))
  | some (ch :: rest) =>
    let c := { c with _config := some config }
    let c := { c with
      _entityBase := some (replace (replace (ch :: rest) "_throttle".toList []) "number.".toList []) }
    _render c

/-- The method `_setThrottle(value)`. -/
def _setThrottle (c : LionelTrainCard) (value : JSIntegral) : LionelTrainCard × Completion :=
  let entityId := "number.".toList ++ c._getEntityId "throttle".toList
  match c._hass with
  | none => (c, .throw .typeError)
  | some _ =>
    let c := { c with calls := c.calls ++
      [ServiceCall.mk "number".toList "set_value".toList entityId (some value)] }
    match c.shadowRoot with
    | none => (c, .throw .typeError)
    | some sf =>
      ({ c with shadowRoot := some { sf with speedDisplay := numberToString value ++ "%".toList } },
        .normal)

/-- The method `_pressButton(action)`. -/
def _pressButton (c : LionelTrainCard) (action : JSString) : LionelTrainCard × Completion :=
  let entityId := "button.".toList ++ c._getEntityId action
  match c._hass with
  | none => (c, .throw .typeError)
  | some _ =>
    ({ c with calls := c.calls ++
      [ServiceCall.mk "button".toList "press".toList entityId none] }, .normal)

/-- The method `_toggleSwitch(action)`. -/
def _toggleSwitch (c : LionelTrainCard) (action : JSString) : LionelTrainCard × Completion :=
  let entityId := "switch.".toList ++ c._getEntityId action
  match c._hass with
  | none => (c, .throw .typeError)
  | some _ =>
    ({ c with calls := c.calls ++
      [ServiceCall.mk "switch".toList "toggle".toList entityId none] }, .normal)

/-- The method `_updateCard()`. -/
def _updateCard (c : LionelTrainCard) : LionelTrainCard × Completion :=
  match c._hass, c._config with
  | none, _ => (c, .normal)
  | some _, none => (c, .normal)
  | some hass, some _ =>
    -- Update connection status
    let connectionEntity := "binary_sensor.".toList ++ c._getEntityId "connected".toList
    let connectionState := hass.states connectionEntity
    let afterStatus : Option Surface × Completion :=
      match connectionState, c.shadowRoot with
      | none, root => (root, .normal)
      | some _, none => (none, .throw .typeError)
      | some st, some sf =>
        let isConnected : Bool := decide (st.state = "on".toList)
        let sf := { sf with
          statusText := if isConnected then "Connected".toList else "Disconnected".toList }
        let sf := { sf with
          statusClass := "status ".toList ++
            (if isConnected then "connected".toList else "disconnected".toList) }
        let sf := { sf with
          cardClasses :=
            if !isConnected then classListAdd sf.cardClasses "unavailable".toList
            else classListRemove sf.cardClasses "unavailable".toList }
        (some sf, .normal)
    match afterStatus with
    | (root, .throw e) => ({ c with shadowRoot := root }, .throw e)
    | (root, .normal) =>
      -- Update throttle value
      let throttleEntity := "number.".toList ++ c._getEntityId "throttle".toList
      let throttleState := hass.states throttleEntity
      let afterThrottle : Option Surface × Completion :=
        match throttleState, root with
        | none, root => (root, .normal)
        | some _, none => (none, .throw .typeError)
        | some st, some sf =>
          let value := orZero (parseFloat st.state)
          let sf := { sf with throttleValue := rangeValue value }
          let sf := { sf with
            speedDisplay := numberToString (mathRound value) ++ "%".toList }
          (some sf, .normal)
      match afterThrottle with
      | (root, .throw e) => ({ c with shadowRoot := root }, .throw e)
      | (root, .normal) =>
        -- Update lights button state
        let lightsEntity := "switch.".toList ++ c._getEntityId "lights".toList
        let lightsState := hass.states lightsEntity
        let afterLights : Option Surface :=
          match lightsState, root with
          | some st, some sf =>
            if st.state = "on".toList then
              some { sf with lightsClasses := classListAdd sf.lightsClasses "active".toList }
            else
              some { sf with lightsClasses := classListRemove sf.lightsClasses "active".toList }
          | _, root => root
        ({ c with shadowRoot := afterLights }, .normal)

/-- The setter `set hass(hass)`. -/
def setHass (c : LionelTrainCard) (hass : Hass) : LionelTrainCard × Completion :=
  _updateCard { c with _hass := some hass }

/-- The method `getCardSize()`. -/
def getCardSize (_c : LionelTrainCard) : Nat := 5

/-- The static method `getStubConfig()`. -/
def getStubConfig : Config where
  entity := some "number.lionel_train_throttle".toList
  name := some "Lionel Train".toList
  rest := []

/-- Running a registered listener on an event whose `target.value` is `targetValue`. -/
def runListener (c : LionelTrainCard) (targetValue : JSString) :
    Listener → LionelTrainCard × Completion
  | .throttleInput => c._setThrottle (parseInt targetValue)
  | .stopClick =>
    match c._pressButton "stop".toList with
    | (c, .throw e) => (c, .throw e)
    | (c, .normal) =>
      match c.shadowRoot with
      | none => (c, .throw .typeError)
      | some sf =>
        let sf := { sf with throttleValue := rangeValue .zero }
        let sf := { sf with speedDisplay := "0%".toList }
        ({ c with shadowRoot := some sf }, .normal)
  | .pressButton action => c._pressButton action
  | .toggleSwitch action => c._toggleSwitch action

/-- The property `value` of a node of the shadow tree: the string of the slider value for
`#throttle`, the empty string for a button. -/
def targetValue (sf : Surface) : Control → JSString
  | .throttle => numberToString (.int sf.throttleValue.val)
  | _ => []

/-- Delivery of an event to a node of the shadow tree: the listeners registered on the
node for this type run in the order of their registration, each on the state its
predecessor left; an error a listener throws ends that listener only. -/
def dispatchEvent (c : LionelTrainCard) (target : Control) (type : EventType) :
    LionelTrainCard :=
  match c.shadowRoot with
  | none => c
  | some sf =>
    (sf.listeners.filter (fun r => decide (r.1 = target ∧ r.2.1 = type))).foldl
      (fun c r => (c.runListener (targetValue sf target) r.2.2).1) c

/-- The user drags the slider towards `v`: the slider takes the value of its range nearest
to `v`, then an `input` event is delivered to it. -/
def dragThrottle (c : LionelTrainCard) (v : ℤ) : LionelTrainCard :=
  let moved : LionelTrainCard :=
    { c with
      shadowRoot := c.shadowRoot.map (fun sf => { sf with throttleValue := clampRange v }) }
  moved.dispatchEvent .throttle .input

/-- The user clicks a button of the card. -/
def click (c : LionelTrainCard) (target : Control) : LionelTrainCard :=
  c.dispatchEvent target .click

end LionelTrainCard

/-! ## The editor -/

/-- The event `new CustomEvent(type, { detail: { config }, bubbles, composed })`; the
configuration in its detail is held by reference. -/
structure CustomEvent where
  type : JSString
  detailConfig : Nat
  bubbles : Bool
  composed : Bool
  deriving DecidableEq

/-- The two inputs of the editor form. -/
inductive EditorField where
  | entity
  | name
  deriving DecidableEq

/-- The arrow functions the editor registers for `change`. -/
inductive EditorListener where
  /-- The function that stores `{ ...this._config, entity: e.target.value }` and fires. -/
  | entityChange
  /-- The function that stores `{ ...this._config, name: e.target.value }` and fires. -/
  | nameChange
  deriving DecidableEq

/-- The form `_render` builds: the values of the inputs `#entity` and `#name`, and the
listeners registered on them. -/
structure EditorForm where
  entityValue : JSString
  nameValue : JSString
  listeners : List (EditorField × EditorListener)
  deriving DecidableEq

/-- An instance of `LionelTrainCardEditor` with the objects it shares with its host:
`objects` holds the configuration objects, a reference being an index into it; `_config` is
the reference the editor stores, `form` its rendered content (`none` before the first
render), `dispatched` the events it has dispatched. -/
structure LionelTrainCardEditor where
  objects : List Config
  _config : Option Nat
  form : Option EditorForm
  dispatched : List CustomEvent
  deriving DecidableEq

namespace LionelTrainCardEditor

/-- The object `this._config` refers to, if there is one. -/
def config (ed : LionelTrainCardEditor) : Option Config :=
  ed._config.bind (fun r => ed.objects[r]?)

/-- The method `_render()` of the editor: the form is rebuilt from `this._config` and each
input gets its `change` listener. -/
def _render (ed : LionelTrainCardEditor) : LionelTrainCardEditor × Completion :=
  match ed.config with
  | none => (ed, .throw .typeError)
  | some c =>
    let form : EditorForm :=
      { entityValue := orElse c.entity [],
        nameValue := orElse c.name [],
        listeners := [(.entity, .entityChange), (.name, .nameChange)] }
    ({ ed with form := some form }, .normal)

/-- The method `setConfig(config)` of the editor, `config` being passed by reference. -/
def setConfig (ed : LionelTrainCardEditor) (config : Nat) :
    LionelTrainCardEditor × Completion :=
  _render { ed with _config := some config }

/-- The method `_fireEvent()`. -/
def _fireEvent (ed : LionelTrainCardEditor) : LionelTrainCardEditor × Completion :=
  match ed._config with
  | none => (ed, .throw .typeError)
  | some r =>
    ({ ed with dispatched := ed.dispatched ++
        [CustomEvent.mk "config-changed".toList r true true] }, .normal)

/-- The object literal `{ ...this._config }`: a new object with the own properties of the
stored configuration (none when nothing is stored). -/
def spreadConfig (ed : LionelTrainCardEditor) : Config :=
  match ed.config with
  | some c => c
  | none => { entity := none, name := none, rest := [] }

/-- Running a registered listener on a `change` event whose `target.value` is
`targetValue`: the new object is allocated, stored, and the event is fired. -/
def runListener (ed : LionelTrainCardEditor) (targetValue : JSString) :
    EditorListener → LionelTrainCardEditor × Completion
  | .entityChange =>
    let fresh : Config := { ed.spreadConfig with entity := some targetValue }
    _fireEvent { ed with objects := ed.objects ++ [fresh], _config := some ed.objects.length }
  | .nameChange =>
    let fresh : Config := { ed.spreadConfig with name := some targetValue }
    _fireEvent { ed with objects := ed.objects ++ [fresh], _config := some ed.objects.length }

/-- Delivery of a `change` event to an input of the form. -/
def dispatchChange (ed : LionelTrainCardEditor) (target : EditorField)
    (targetValue : JSString) : LionelTrainCardEditor :=
  match ed.form with
  | none => ed
  | some form =>
    (form.listeners.filter (fun r => decide (r.1 = target))).foldl
      (fun ed r => (ed.runListener targetValue r.2).1) ed

/-- The user edits the entity field to `e`: the input takes the value, then its `change`
event is delivered. -/
def editEntity (ed : LionelTrainCardEditor) (e : JSString) : LionelTrainCardEditor :=
  let typed : LionelTrainCardEditor :=
    { ed with form := ed.form.map (fun f => { f with entityValue := e }) }
  typed.dispatchChange .entity e

/-- The user edits the name field to `n`. -/
def editName (ed : LionelTrainCardEditor) (n : JSString) : LionelTrainCardEditor :=
  let typed : LionelTrainCardEditor :=
    { ed with form := ed.form.map (fun f => { f with nameValue := n }) }
  typed.dispatchChange .name n

end LionelTrainCardEditor

/-! ## Predicates used in the statements -/

/-- The registrations `_setupEventListeners` makes on a fresh markup, in their order. -/
def wiring : List (Control × EventType × Listener) :=
  [(.throttle, .input, .throttleInput),
   (.btnStop, .click, .stopClick),
   (.btnForward, .click, .pressButton "forward".toList),
   (.btnReverse, .click, .pressButton "reverse".toList),
   (.btnLights, .click, .toggleSwitch "lights".toList),
   (.btnHorn, .click, .pressButton "horn".toList),
   (.btnBell, .click, .pressButton "bell".toList),
   (.btnDisconnect, .click, .pressButton "disconnect".toList)]

/-- A configured card with entity base `base`: `setConfig` has succeeded on it, so that it
holds a configuration, the entity base, and a rendered shadow tree with its listeners. -/
def LionelTrainCard.Configured (c : LionelTrainCard) (base : JSString) : Prop :=
  c._config.isSome = true ∧ c._entityBase = some base ∧
    ∃ sf, c.shadowRoot = some sf ∧ sf.listeners = wiring

/-- Two snapshots that hold the same state objects at the three ids a card with entity
base `base` reads. -/
def AgreeOn (base : JSString) (h₁ h₂ : Hass) : Prop :=
  h₁.states ("binary_sensor.".toList ++ base ++ "_connected".toList) =
    h₂.states ("binary_sensor.".toList ++ base ++ "_connected".toList) ∧
  h₁.states ("number.".toList ++ base ++ "_throttle".toList) =
    h₂.states ("number.".toList ++ base ++ "_throttle".toList) ∧
  h₁.states ("switch.".toList ++ base ++ "_lights".toList) =
    h₂.states ("switch.".toList ++ base ++ "_lights".toList)

/-- The surface a reconciliation pass is expected to leave, field by field, from the state
objects found for the connection sensor, the throttle and the lights switch: a field whose
entity is absent keeps its content. -/
def reconciled (connection throttle lights : Option EntityState) (sf : Surface) : Surface where
  title := sf.title
  statusText :=
    match connection with
    | none => sf.statusText
    | some e => if e.state = "on".toList then "Connected".toList else "Disconnected".toList
  statusClass :=
    match connection with
    | none => sf.statusClass
    | some e =>
      if e.state = "on".toList then "status connected".toList
      else "status disconnected".toList
  cardClasses :=
    match connection with
    | none => sf.cardClasses
    | some e =>
      if e.state = "on".toList then classListRemove sf.cardClasses "unavailable".toList
      else classListAdd sf.cardClasses "unavailable".toList
  speedDisplay :=
    match throttle with
    | none => sf.speedDisplay
    | some e => numberToString (mathRound (orZero (parseFloat e.state))) ++ "%".toList
  throttleValue :=
    match throttle with
    | none => sf.throttleValue
    | some e => rangeValue (orZero (parseFloat e.state))
  lightsClasses :=
    match lights with
    | none => sf.lightsClasses
    | some e =>
      if e.state = "on".toList then classListAdd sf.lightsClasses "active".toList
      else classListRemove sf.lightsClasses "active".toList
  listeners := sf.listeners

/-! ## Sample inputs -/

/-- A snapshot that holds the three entities of the stub configuration, with the given
states, and nothing else. -/
def sampleHass (connected throttle lights : JSString) : Hass where
  states := fun id =>
    if id = "binary_sensor.lionel_train_connected".toList then some ⟨connected⟩
    else if id = "number.lionel_train_throttle".toList then some ⟨throttle⟩
    else if id = "switch.lionel_train_lights".toList then some ⟨lights⟩
    else none

/-- A new card after `setConfig(getStubConfig())`. -/
def stubCard : LionelTrainCard := (LionelTrainCard.new.setConfig LionelTrainCard.getStubConfig).1

/-- The card `stubCard` after the host has pushed the sample snapshot. -/
def sampleCard (connected throttle lights : JSString) : LionelTrainCard :=
  (stubCard.setHass (sampleHass connected throttle lights)).1

/-! ## Searching and replacing -/

theorem stringIndexOf_of_isPrefixOf (pat s : JSString) (h : pat.isPrefixOf s = true) :
    stringIndexOf pat s = some 0 := by
  cases s with
  | nil => simp [stringIndexOf, h]
  | cons c cs => simp [stringIndexOf, h]

theorem stringIndexOf_cons_of_not (pat : JSString) (c : Char) (cs : JSString)
    (h : pat.isPrefixOf (c :: cs) = false) :
    stringIndexOf pat (c :: cs) = (stringIndexOf pat cs).map (· + 1) := by
  simp [stringIndexOf, h]

/-- The pattern `number.` is found at the start of a string that begins with it. -/
theorem stringIndexOf_number (b : JSString) :
    stringIndexOf "number.".toList ("number.".toList ++ b) = some 0 := by
  apply stringIndexOf_of_isPrefixOf
  simp

/-- No occurrence of `_throttle` starts inside `b` and ends inside a `_throttle` that
follows `b`: the underscore occurs in the pattern at its start only. -/
theorem not_prefix_straddle (b : JSString) (hb : b ≠ [])
    (h : ¬ "_throttle".toList <:+: b) :
    ¬ "_throttle".toList <+: b ++ "_throttle".toList := by
  intro hp
  by_cases hlen : "_throttle".toList.length ≤ b.length
  · exact h (List.prefix_of_prefix_length_le hp (List.prefix_append b _) hlen).isInfix
  · obtain ⟨t, ht⟩ := hp
    have hk : 0 < b.length := List.length_pos.mpr hb
    have hk9 : b.length < 9 := by simpa using hlen
    have h1 : ("_throttle".toList ++ t)[b.length]? = (b ++ "_throttle".toList)[b.length]? := by
      rw [ht]
    rw [List.getElem?_append_right (le_refl _), List.getElem?_append_left (by simpa using hk9)]
      at h1
    simp only [Nat.sub_self] at h1
    generalize b.length = k at hk hk9 h1
    interval_cases k <;> simp at h1

/-- In `b` followed by `_throttle`, for a `b` that does not contain `_throttle`, the first
occurrence of `_throttle` is the one that follows `b`. -/
theorem stringIndexOf_throttle_suffix (b : JSString) (h : ¬ "_throttle".toList <:+: b) :
    stringIndexOf "_throttle".toList (b ++ "_throttle".toList) = some b.length := by
  induction b with
  | nil => exact stringIndexOf_of_isPrefixOf _ _ (by simp)
  | cons c cs ih =>
    have hcs : ¬ "_throttle".toList <:+: cs := fun hi => h (hi.trans (List.suffix_cons c cs).isInfix)
    have hnp : ("_throttle".toList).isPrefixOf (c :: (cs ++ "_throttle".toList)) = false := by
      rw [Bool.eq_false_iff]
      intro hp
      exact not_prefix_straddle (c :: cs) (List.cons_ne_nil c cs) h
        (List.isPrefixOf_iff_prefix.mp hp)
    rw [List.cons_append, stringIndexOf_cons_of_not _ _ _ hnp, ih hcs]
    rfl

/-- The first occurrence of `_throttle` in `number.<b>_throttle`. -/
theorem stringIndexOf_throttle_entity (b : JSString) (h : ¬ "_throttle".toList <:+: b) :
    stringIndexOf "_throttle".toList ("number.".toList ++ b ++ "_throttle".toList) =
      some (7 + b.length) := by
  have hs := stringIndexOf_throttle_suffix b h
  simp only [String.toList, List.append_assoc, List.cons_append, List.nil_append] at hs ⊢
  simp [stringIndexOf, List.isPrefixOf, hs]
  omega

/-- The two replacements of `setConfig` on `number.<b>_throttle`. -/
theorem replace_number_throttle (b : JSString) (h : ¬ "_throttle".toList <:+: b) :
    replace (replace ("number.".toList ++ b ++ "_throttle".toList) "_throttle".toList [])
      "number.".toList [] = b := by
  have h1 : replace ("number.".toList ++ b ++ "_throttle".toList) "_throttle".toList [] =
      "number.".toList ++ b := by
    unfold replace
    rw [stringIndexOf_throttle_entity b h]
    have hl : ("number.".toList ++ b).length = 7 + b.length := by
      simp only [String.toList, List.length_append, List.length_cons, List.length_nil]
    have hl2 : ("number.".toList ++ b ++ "_throttle".toList).length =
        7 + b.length + "_throttle".toList.length := by
      simp only [String.toList, List.length_append, List.length_cons, List.length_nil]
    simp only [List.append_nil]
    rw [← hl, List.take_left, List.drop_eq_nil_of_le (by rw [hl2, hl]), List.append_nil]
  rw [h1]
  unfold replace
  rw [stringIndexOf_number]
  simp

/-! ## Numerals -/

/-- The string of a slider value is its decimal numeral, and `parseInt` reads it back. -/
theorem slider_numeral : ∀ p : Fin 101,
    numberToString (.int p.val) = decimalDigits p.val ∧
    parseInt (numberToString (.int p.val)) = .int p.val := by
  decide

theorem rangeValue_zero : rangeValue .zero = 0 := by decide

theorem clampRange_of_mem (v : ℤ) (h0 : 0 ≤ v) (h100 : v ≤ 100) :
    ((clampRange v).val : ℤ) = v := by
  simp only [clampRange]
  omega

/-! ## The card: configuration -/

namespace LionelTrainCard

/-- The state `setConfig` leaves for a configuration that has an entity. -/
theorem setConfig_of_entity (c : LionelTrainCard) (config : Config) (e : JSString)
    (he : config.entity = some e) (hne : e ≠ []) :
    c.setConfig config =
      ({ _hass := c._hass
         _config := some config
         _entityBase := some (replace (replace e "_throttle".toList []) "number.".toList [])
         shadowRoot := some
           { Surface.markup (orElse config.name "Lionel Train".toList) with
             listeners := wiring }
         calls := c.calls }, .normal) := by
  cases e with
  | nil => exact absurd rfl hne
  | cons ch rest =>
    simp [setConfig, he, _render, _setupEventListeners, Surface.addEventListener,
      Surface.markup, wiring]

theorem configured_setConfig (c : LionelTrainCard) (config : Config) (e : JSString)
    (he : config.entity = some e) (hne : e ≠ []) :
    (c.setConfig config).1.Configured
      (replace (replace e "_throttle".toList []) "number.".toList []) := by
  rw [setConfig_of_entity c config e he hne]
  exact ⟨rfl, rfl, _, rfl, rfl⟩

/-- The id `_getEntityId` builds on a card with an entity base. -/
theorem getEntityId_eq (c : LionelTrainCard) (base suffix : JSString)
    (hb : c._entityBase = some base) :
    c._getEntityId suffix = base ++ '_' :: suffix := by
  simp [_getEntityId, hb, templateString]

/-! ## The card: reconciliation -/

/-- On a card with a host context, a configuration, an entity base and a rendered shadow
tree, `_updateCard` returns normally and leaves the reconciled surface. -/
theorem updateCard_eq (c : LionelTrainCard) (h : Hass) (base : JSString) (sf : Surface)
    (hh : c._hass = some h) (hc : c._config.isSome = true) (hb : c._entityBase = some base)
    (hsf : c.shadowRoot = some sf) :
    c._updateCard =
      ({ c with
         shadowRoot := some (reconciled
           (h.states ("binary_sensor.".toList ++ base ++ "_connected".toList))
           (h.states ("number.".toList ++ base ++ "_throttle".toList))
           (h.states ("switch.".toList ++ base ++ "_lights".toList)) sf) }, .normal) := by
  obtain ⟨cfg, hcfg⟩ := Option.isSome_iff_exists.mp hc
  simp only [_updateCard, hh, hcfg, hsf, getEntityId_eq c base _ hb]
  simp only [String.toList, List.append_assoc, List.cons_append, List.nil_append]
  cases h.states ('b' :: 'i' :: 'n' :: 'a' :: 'r' :: 'y' :: '_' :: 's' :: 'e' :: 'n' :: 's' ::
      'o' :: 'r' :: '.' :: (base ++ ['_', 'c', 'o', 'n', 'n', 'e', 'c', 't', 'e', 'd'])) <;>
    cases h.states ('n' :: 'u' :: 'm' :: 'b' :: 'e' :: 'r' :: '.' ::
      (base ++ ['_', 't', 'h', 'r', 'o', 't', 't', 'l', 'e'])) <;>
    cases h.states ('s' :: 'w' :: 'i' :: 't' :: 'c' :: 'h' :: '.' ::
      (base ++ ['_', 'l', 'i', 'g', 'h', 't', 's'])) <;>
    simp only [reconciled] <;> (try split_ifs) <;> simp_all

theorem configured_setHass (c : LionelTrainCard) (h : Hass) (base : JSString)
    (hc : c.Configured base) :
    (c.setHass h).1.Configured base ∧ (c.setHass h).1._hass = some h ∧
      (c.setHass h).2 = .normal := by
  obtain ⟨hcfg, hb, sf, hsf, hl⟩ := hc
  have := updateCard_eq { c with _hass := some h } h base sf rfl hcfg hb hsf
  rw [setHass, this]
  exact ⟨⟨hcfg, hb, _, rfl, hl⟩, rfl, rfl⟩

theorem stubCard_configured : stubCard.Configured "lionel_train".toList := by
  have := configured_setConfig new getStubConfig "number.lionel_train_throttle".toList rfl
    (by decide)
  have hr : replace (replace "number.lionel_train_throttle".toList "_throttle".toList [])
      "number.".toList [] = "lionel_train".toList := by decide
  rw [hr] at this
  exact this

theorem sampleCard_configured (connected throttle lights : JSString) :
    (sampleCard connected throttle lights).Configured "lionel_train".toList ∧
      (sampleCard connected throttle lights)._hass =
        some (sampleHass connected throttle lights) := by
  have := configured_setHass stubCard (sampleHass connected throttle lights) _
    stubCard_configured
  exact ⟨this.1, this.2.1⟩

/-! ## The card: gestures -/

/-- Dragging the slider on a configured card with a host context. -/
theorem dragThrottle_eq (c : LionelTrainCard) (h : Hass) (base : JSString) (sf : Surface)
    (v : ℤ) (hh : c._hass = some h) (hb : c._entityBase = some base)
    (hsf : c.shadowRoot = some sf) (hl : sf.listeners = wiring) :
    c.dragThrottle v =
      { c with
        calls := c.calls ++
          [ServiceCall.mk "number".toList "set_value".toList
            ("number.".toList ++ base ++ "_throttle".toList)
            (some (.int (clampRange v).val))]
        shadowRoot := some
          { sf with throttleValue := clampRange v
                    speedDisplay := decimalDigits (clampRange v).val ++ "%".toList } } := by
  have h1 := (slider_numeral (clampRange v)).1
  have h2 := (slider_numeral (clampRange v)).2
  rw [h1] at h2
  simp [dragThrottle, dispatchEvent, hsf, hl, wiring, runListener, _setThrottle, hh,
    targetValue, h1, h2, _getEntityId, hb, templateString]

/-- Clicking a button of a configured card with a host context. -/
theorem click_eq (c : LionelTrainCard) (h : Hass) (base : JSString) (sf : Surface)
    (hh : c._hass = some h) (hb : c._entityBase = some base)
    (hsf : c.shadowRoot = some sf) (hl : sf.listeners = wiring) :
    c.click .btnStop =
      { c with
        calls := c.calls ++
          [ServiceCall.mk "button".toList "press".toList
            ("button.".toList ++ base ++ "_stop".toList) none]
        shadowRoot := some { sf with throttleValue := 0, speedDisplay := "0%".toList } } ∧
    (∀ target action, (target, action) ∈
        [(Control.btnForward, "forward".toList), (.btnReverse, "reverse".toList),
         (.btnHorn, "horn".toList), (.btnBell, "bell".toList),
         (.btnDisconnect, "disconnect".toList)] →
      c.click target =
        { c with
          calls := c.calls ++
            [ServiceCall.mk "button".toList "press".toList
              ("button.".toList ++ base ++ "_".toList ++ action) none] }) ∧
    c.click .btnLights =
      { c with
        calls := c.calls ++
          [ServiceCall.mk "switch".toList "toggle".toList
            ("switch.".toList ++ base ++ "_lights".toList) none] } := by
  refine ⟨?_, ?_, ?_⟩
  · simp [click, dispatchEvent, hsf, hl, wiring, runListener, _pressButton, hh,
      _getEntityId, hb, templateString, rangeValue_zero]
  · intro target action hm
    simp only [List.mem_cons, Prod.mk.injEq, List.mem_singleton, List.not_mem_nil,
      or_false] at hm
    rcases hm with ⟨rfl, rfl⟩ | ⟨rfl, rfl⟩ | ⟨rfl, rfl⟩ | ⟨rfl, rfl⟩ | ⟨rfl, rfl⟩ <;>
      simp [click, dispatchEvent, hsf, hl, wiring, runListener, _pressButton, hh,
        _getEntityId, hb, templateString]
  · simp [click, dispatchEvent, hsf, hl, wiring, runListener, _toggleSwitch, hh,
      _getEntityId, hb, templateString]

end LionelTrainCard

theorem mem_classListAdd (classes : List JSString) (token : JSString) :
    token ∈ classListAdd classes token := by
  unfold classListAdd
  split <;> simp_all

theorem not_mem_classListRemove (classes : List JSString) (token : JSString) :
    token ∉ classListRemove classes token := by
  simp [classListRemove]

theorem roundHalfUp_zero (neg : Bool) (p : ℤ) : roundHalfUp neg 0 p = 0 := by
  unfold roundHalfUp
  by_cases hp : 0 ≤ p
  · cases neg <;> simp [hp]
  · cases neg
    · have : 2 ^ (-p).toNat / 2 ^ ((-p).toNat + 1) = 0 :=
        Nat.div_eq_of_lt (Nat.pow_lt_pow_right (by decide) (Nat.lt_succ_self _))
      simp [hp, this]
    · simp [hp]

/-- For a Number that is not `NaN`, `x || 0` is rounded, sanitized and printed as `x`. -/
theorem orZero_facts (x : JSNumber) (hx : x ≠ .nan) :
    numberToString (mathRound (orZero x)) = numberToString (mathRound x) ∧
    rangeValue (orZero x) = rangeValue x := by
  cases x with
  | nan => exact absurd rfl hx
  | posInf => exact ⟨rfl, rfl⟩
  | negInf => exact ⟨rfl, rfl⟩
  | negZero => exact ⟨by decide, by decide⟩
  | fin neg m p =>
    by_cases hm : m = 0
    · subst hm
      have h0 : orZero (.fin neg 0 p) = .zero := by simp [orZero]
      have hm : mathRound (.fin neg 0 p) = .int 0 := by
        simp [mathRound, roundHalfUp_zero]
      have hv : rangeValue (.fin neg 0 p) = 0 := by
        simp only [rangeValue, roundHalfUp_zero]
        decide
      rw [h0, hm, hv]
      exact ⟨by decide, by decide⟩
    · have h0 : orZero (.fin neg m p) = .fin neg m p := by simp [orZero, hm]
      rw [h0]
      exact ⟨rfl, rfl⟩

/-- The slider value `Math.round` and the sanitization agree on: the rounded integer,
brought into the range. -/
theorem rangeValue_of_mathRound (x : JSNumber) (n : ℤ) (h : mathRound x = .int n) :
    rangeValue x = clampRange n := by
  cases x with
  | nan => simp [mathRound] at h
  | posInf => simp [mathRound] at h
  | negInf => simp [mathRound] at h
  | negZero => simp [mathRound] at h
  | fin neg m p =>
    simp only [mathRound] at h
    split_ifs at h
    injection h with h
    rw [rangeValue, h]

theorem rangeValue_of_negZero (x : JSNumber) (h : mathRound x = .negZero) :
    rangeValue x = 0 := by
  cases x with
  | nan => simp [mathRound] at h
  | posInf => simp [mathRound] at h
  | negInf => simp [mathRound] at h
  | negZero => rfl
  | fin neg m p =>
    simp only [mathRound] at h
    split_ifs at h with hc
    rw [rangeValue, hc.2.2]
    decide

/-! ## The claims -/

open LionelTrainCard

/-- C2: on every card, `setConfig` with a configuration whose `entity` is absent or the
empty string throws the configuration error and leaves the card exactly as it was: its
stored configuration, its entity base and its rendered surface are untouched. -/
theorem C2_setConfig_without_entity (c : LionelTrainCard) (config : Config)
    (h : config.entity = none ∨ config.entity = some []) :
    c.setConfig config =
      (c, .throw (.error
        "You need to define an entity (the throttle number entity)".toList)) := by
  rcases h with h | h <;> simp [setConfig, h]

theorem C2_setConfig_without_entity_witness :
    ((Config.mk none (some "Train".toList) []).entity = none ∨
      (Config.mk none (some "Train".toList) []).entity = some []) ∧
    (sampleCard "on".toList "57".toList "off".toList).setConfig
        (Config.mk none (some "Train".toList) []) =
      (sampleCard "on".toList "57".toList "off".toList, .throw (.error
        "You need to define an entity (the throttle number entity)".toList)) :=
  ⟨Or.inl rfl, C2_setConfig_without_entity _ _ (Or.inl rfl)⟩

/-- C10: for every `b` that does not contain `_throttle`, in `number.<b>_throttle` the
first occurrence of `_throttle` is the trailing one, removing it leaves `number.<b>`, whose
first occurrence of `number.` is the leading one, and `setConfig` on that entity returns
normally with the entity base `b`; for the stub configuration the base is
`lionel_train`. -/
theorem C10_entityBase_first_occurrences (c : LionelTrainCard) (b : JSString)
    (name : Option JSString) (rest : List (JSString × JSString))
    (h : ¬ "_throttle".toList <:+: b) :
    stringIndexOf "_throttle".toList ("number.".toList ++ b ++ "_throttle".toList) =
      some ("number.".toList ++ b).length ∧
    replace ("number.".toList ++ b ++ "_throttle".toList) "_throttle".toList [] =
      "number.".toList ++ b ∧
    stringIndexOf "number.".toList ("number.".toList ++ b) = some 0 ∧
    replace ("number.".toList ++ b) "number.".toList [] = b ∧
    (c.setConfig ⟨some ("number.".toList ++ b ++ "_throttle".toList), name, rest⟩).1._entityBase =
      some b ∧
    (c.setConfig ⟨some ("number.".toList ++ b ++ "_throttle".toList), name, rest⟩).2 =
      .normal ∧
    (c.setConfig getStubConfig).1._entityBase = some "lionel_train".toList := by
  have hidx := stringIndexOf_throttle_entity b h
  have hlen : ("number.".toList ++ b).length = 7 + b.length := by
    simp only [String.toList, List.length_append, List.length_cons, List.length_nil]
  have hnum := stringIndexOf_number b
  have hr1 : replace ("number.".toList ++ b ++ "_throttle".toList) "_throttle".toList [] =
      "number.".toList ++ b := by
    unfold replace
    rw [hidx, ← hlen]
    simp
  have hr2 : replace ("number.".toList ++ b) "number.".toList [] = b := by
    unfold replace
    rw [hnum]
    simp
  have hne : "number.".toList ++ b ++ "_throttle".toList ≠ [] := by simp
  refine ⟨by rw [hidx, hlen], hr1, hnum, hr2, ?_, ?_, ?_⟩
  · rw [setConfig_of_entity c _ _ rfl hne, hr1, hr2]
  · rw [setConfig_of_entity c _ _ rfl hne]
  · rw [setConfig_of_entity c getStubConfig "number.lionel_train_throttle".toList rfl
      (by decide)]
    have hr : replace (replace "number.lionel_train_throttle".toList "_throttle".toList [])
        "number.".toList [] = "lionel_train".toList := by decide
    rw [hr]

theorem C10_entityBase_first_occurrences_witness :
    (¬ "_throttle".toList <:+: "lionel_train".toList) ∧
    (LionelTrainCard.new.setConfig
      ⟨some ("number.".toList ++ "lionel_train".toList ++ "_throttle".toList),
        some "Lionel Train".toList, []⟩).1._entityBase = some "lionel_train".toList :=
  ⟨by decide,
    (C10_entityBase_first_occurrences LionelTrainCard.new "lionel_train".toList
      (some "Lionel Train".toList) [] (by decide)).2.2.2.2.1⟩

/-- C1, as stated, fails: for the domain `sensor` the prefix `sensor.` stays in the entity
base (only the literal `number.` is removed), and for the domain `number` and a base that
contains `_throttle` the occurrence inside the base is removed, not the trailing one. -/
theorem C1_counterexample :
    (LionelTrainCard.new.setConfig
      ⟨some ("sensor".toList ++ ".".toList ++ "train".toList ++ "_throttle".toList),
        none, []⟩).1._entityBase = some "sensor.train".toList ∧
    "sensor.train".toList ≠ "train".toList ∧
    (LionelTrainCard.new.setConfig
      ⟨some ("number".toList ++ ".".toList ++ "a_throttle_b".toList ++ "_throttle".toList),
        none, []⟩).1._entityBase = some "a_b_throttle".toList ∧
    "a_b_throttle".toList ≠ "a_throttle_b".toList := by
  refine ⟨?_, by decide, ?_, by decide⟩
  · rw [setConfig_of_entity _ _ _ rfl (by decide)]
    have hr : replace (replace
        ("sensor".toList ++ ".".toList ++ "train".toList ++ "_throttle".toList)
        "_throttle".toList []) "number.".toList [] = "sensor.train".toList := by decide
    rw [hr]
  · rw [setConfig_of_entity _ _ _ rfl (by decide)]
    have hr : replace (replace
        ("number".toList ++ ".".toList ++ "a_throttle_b".toList ++ "_throttle".toList)
        "_throttle".toList []) "number.".toList [] = "a_b_throttle".toList := by decide
    rw [hr]

/-- C1, amended: for the domain `number` and every base `b` that does not contain
`_throttle`, `setConfig` on `number.<b>_throttle` stores the entity base `b`; a
reconciliation reads the snapshot at `binary_sensor.<b>_connected`, `number.<b>_throttle`
and `switch.<b>_lights`, and with a host context the gestures call `number.<b>_throttle`,
`switch.<b>_lights` and `button.<b>_forward`, `button.<b>_reverse`, `button.<b>_horn`,
`button.<b>_bell`, `button.<b>_disconnect`, `button.<b>_stop`. -/
theorem C1_entity_family (c : LionelTrainCard) (b : JSString) (name : Option JSString)
    (rest : List (JSString × JSString)) (hass : Hass) (v : ℤ)
    (h : ¬ "_throttle".toList <:+: b) :
    (c.setConfig ⟨some ("number.".toList ++ b ++ "_throttle".toList), name, rest⟩).1._entityBase
      = some b ∧
    (((c.setConfig ⟨some ("number.".toList ++ b ++ "_throttle".toList), name, rest⟩).1.setHass
        hass).1.shadowRoot =
      some (reconciled
        (hass.states ("binary_sensor.".toList ++ b ++ "_connected".toList))
        (hass.states ("number.".toList ++ b ++ "_throttle".toList))
        (hass.states ("switch.".toList ++ b ++ "_lights".toList))
        { Surface.markup (orElse name "Lionel Train".toList) with listeners := wiring })) ∧
    (∀ card,
      card = ((c.setConfig
        ⟨some ("number.".toList ++ b ++ "_throttle".toList), name, rest⟩).1.setHass hass).1 →
      (card.dragThrottle v).calls = card.calls ++
        [ServiceCall.mk "number".toList "set_value".toList
          ("number.".toList ++ b ++ "_throttle".toList)
          (some (.int (clampRange v).val))] ∧
      (card.click .btnLights).calls = card.calls ++
        [ServiceCall.mk "switch".toList "toggle".toList
          ("switch.".toList ++ b ++ "_lights".toList) none] ∧
      (card.click .btnForward).calls = card.calls ++
        [ServiceCall.mk "button".toList "press".toList
          ("button.".toList ++ b ++ "_forward".toList) none] ∧
      (card.click .btnReverse).calls = card.calls ++
        [ServiceCall.mk "button".toList "press".toList
          ("button.".toList ++ b ++ "_reverse".toList) none] ∧
      (card.click .btnHorn).calls = card.calls ++
        [ServiceCall.mk "button".toList "press".toList
          ("button.".toList ++ b ++ "_horn".toList) none] ∧
      (card.click .btnBell).calls = card.calls ++
        [ServiceCall.mk "button".toList "press".toList
          ("button.".toList ++ b ++ "_bell".toList) none] ∧
      (card.click .btnDisconnect).calls = card.calls ++
        [ServiceCall.mk "button".toList "press".toList
          ("button.".toList ++ b ++ "_disconnect".toList) none] ∧
      (card.click .btnStop).calls = card.calls ++
        [ServiceCall.mk "button".toList "press".toList
          ("button.".toList ++ b ++ "_stop".toList) none]) := by
  have hne : "number.".toList ++ b ++ "_throttle".toList ≠ [] := by simp
  have hset := setConfig_of_entity c
    ⟨some ("number.".toList ++ b ++ "_throttle".toList), name, rest⟩ _ rfl hne
  rw [replace_number_throttle b h] at hset
  have hup := updateCard_eq
    { (c.setConfig ⟨some ("number.".toList ++ b ++ "_throttle".toList), name, rest⟩).1 with
      _hass := some hass } hass b
    { Surface.markup (orElse name "Lionel Train".toList) with listeners := wiring }
    rfl (by rw [hset]; rfl) (by rw [hset]) (by rw [hset])
  refine ⟨by rw [hset], by rw [setHass, hup], ?_⟩
  intro card hcard
  have hh : card._hass = some hass := by rw [hcard, setHass, hup]
  have hb : card._entityBase = some b := by rw [hcard, setHass, hup, hset]
  have hsf : card.shadowRoot = some (reconciled
      (hass.states ("binary_sensor.".toList ++ b ++ "_connected".toList))
      (hass.states ("number.".toList ++ b ++ "_throttle".toList))
      (hass.states ("switch.".toList ++ b ++ "_lights".toList))
      { Surface.markup (orElse name "Lionel Train".toList) with listeners := wiring }) := by
    rw [hcard, setHass, hup]
  have hclick := click_eq card hass b _ hh hb hsf rfl
  refine ⟨by rw [dragThrottle_eq card hass b _ v hh hb hsf rfl], by rw [hclick.2.2],
    ?_, ?_, ?_, ?_, ?_, by rw [hclick.1]⟩
  · rw [hclick.2.1 .btnForward "forward".toList (by simp)]; simp
  · rw [hclick.2.1 .btnReverse "reverse".toList (by simp)]; simp
  · rw [hclick.2.1 .btnHorn "horn".toList (by simp)]; simp
  · rw [hclick.2.1 .btnBell "bell".toList (by simp)]; simp
  · rw [hclick.2.1 .btnDisconnect "disconnect".toList (by simp)]; simp

theorem C1_entity_family_witness :
    (¬ "_throttle".toList <:+: "lionel_train".toList) ∧
    (LionelTrainCard.new.setConfig
      ⟨some ("number.".toList ++ "lionel_train".toList ++ "_throttle".toList), none,
        []⟩).1._entityBase = some "lionel_train".toList :=
  ⟨by decide,
    (C1_entity_family LionelTrainCard.new "lionel_train".toList none []
      (sampleHass "on".toList "57".toList "off".toList) 40 (by decide)).1⟩

/-- C3: on every configured card with a host context whose snapshot holds
`binary_sensor.<base>_connected`, `_updateCard` returns normally; when the state is `on`
the status text is `Connected`, the status class `status connected`, and `unavailable` is
not among the classes of the card surface; for every other state the text is
`Disconnected`, the class `status disconnected`, and `unavailable` is among them. -/
theorem C3_connection_status (c : LionelTrainCard) (hass : Hass) (base : JSString)
    (e : EntityState) (hc : c.Configured base) (hh : c._hass = some hass)
    (he : hass.states ("binary_sensor.".toList ++ base ++ "_connected".toList) = some e) :
    c._updateCard.2 = .normal ∧
    ∃ sf, c._updateCard.1.shadowRoot = some sf ∧
      (e.state = "on".toList →
        sf.statusText = "Connected".toList ∧ sf.statusClass = "status connected".toList ∧
        "unavailable".toList ∉ sf.cardClasses) ∧
      (e.state ≠ "on".toList →
        sf.statusText = "Disconnected".toList ∧
        sf.statusClass = "status disconnected".toList ∧
        "unavailable".toList ∈ sf.cardClasses) := by
  obtain ⟨hcfg, hb, sf, hsf, _⟩ := hc
  rw [updateCard_eq c hass base sf hh hcfg hb hsf, he]
  refine ⟨rfl, _, rfl, ?_, ?_⟩
  · intro hon
    simp only [reconciled, hon, if_true]
    exact ⟨trivial, trivial, not_mem_classListRemove _ _⟩
  · intro hoff
    simp only [reconciled, hoff, if_false]
    exact ⟨trivial, trivial, mem_classListAdd _ _⟩

theorem C3_connection_status_witness :
    ∃ sf, (sampleCard "off".toList "57".toList "off".toList)._updateCard.1.shadowRoot =
        some sf ∧
      sf.statusText = "Disconnected".toList ∧
      sf.statusClass = "status disconnected".toList ∧
      "unavailable".toList ∈ sf.cardClasses := by
  obtain ⟨_, sf, hsf, _, hoff⟩ :=
    C3_connection_status (sampleCard "off".toList "57".toList "off".toList)
      (sampleHass "off".toList "57".toList "off".toList) "lionel_train".toList
      ⟨"off".toList⟩ (sampleCard_configured _ _ _).1 (sampleCard_configured _ _ _).2
      (by simp [sampleHass])
  exact ⟨sf, hsf, hoff (by decide)⟩

/-- The throttle part of a reconciliation on a configured card with a host context. -/
theorem updateCard_throttle (c : LionelTrainCard) (hass : Hass) (base : JSString)
    (e : EntityState) (hc : c.Configured base) (hh : c._hass = some hass)
    (he : hass.states ("number.".toList ++ base ++ "_throttle".toList) = some e) :
    c._updateCard.2 = .normal ∧
    ∃ sf, c._updateCard.1.shadowRoot = some sf ∧
      sf.throttleValue = rangeValue (orZero (parseFloat e.state)) ∧
      sf.speedDisplay =
        numberToString (mathRound (orZero (parseFloat e.state))) ++ "%".toList := by
  obtain ⟨hcfg, hb, sf, hsf, _⟩ := hc
  rw [updateCard_eq c hass base sf hh hcfg hb hsf, he]
  exact ⟨rfl, _, rfl, rfl, rfl⟩

theorem parse_57 :
    mathRound (parseFloat "57".toList) = .int 57 ∧
    rangeValue (orZero (parseFloat "57".toList)) = 57 ∧
    numberToString (mathRound (orZero (parseFloat "57".toList))) ++ "%".toList =
      "57%".toList := by
  decide

theorem parse_150 :
    mathRound (parseFloat "150".toList) = .int 150 ∧
    rangeValue (orZero (parseFloat "150".toList)) = 100 ∧
    numberToString (mathRound (orZero (parseFloat "150".toList))) ++ "%".toList =
      "150%".toList := by
  decide

/-- C4, as stated, fails: for the state `150` the label is `150%`, the rounded value, but
the slider, whose range ends at 100, takes the value 100. -/
theorem C4_counterexample :
    mathRound (parseFloat "150".toList) = .int 150 ∧
    ∃ sf, (sampleCard "on".toList "150".toList "off".toList).shadowRoot = some sf ∧
      sf.speedDisplay = "150%".toList ∧ sf.throttleValue = 100 ∧
      (sf.throttleValue.val : ℤ) ≠ 150 := by
  refine ⟨parse_150.1, ?_⟩
  obtain ⟨_, sf, hsf, hv, hd⟩ := updateCard_throttle
    { stubCard with _hass := some (sampleHass "on".toList "150".toList "off".toList) }
    (sampleHass "on".toList "150".toList "off".toList) "lionel_train".toList
    ⟨"150".toList⟩ stubCard_configured rfl (by simp [sampleHass])
  rw [parse_150.2.1] at hv
  rw [parse_150.2.2] at hd
  exact ⟨sf, hsf, hd, hv, by rw [hv]; decide⟩

/-- C4, amended: on every configured card with a host context whose snapshot holds
`number.<base>_throttle` with a state that parses as a number `x` (not `NaN`),
`_updateCard` returns normally and sets the percentage label to the rounded value
`Math.round(x)`, whatever its size, followed by `%`; the slider takes the rounded value
brought into its range from 0 to 100, hence the rounded value itself when that lies from 0
to 100, and its default 50 for an infinite `x`; for the state `57` the slider is at 57 and
the label is `57%`. -/
theorem C4_throttle_position_and_label (c : LionelTrainCard) (hass : Hass)
    (base : JSString) (e : EntityState) (x : JSNumber) (hc : c.Configured base)
    (hh : c._hass = some hass)
    (he : hass.states ("number.".toList ++ base ++ "_throttle".toList) = some e)
    (hx : parseFloat e.state = x) (hnan : x ≠ .nan) :
    c._updateCard.2 = .normal ∧
    ∃ sf, c._updateCard.1.shadowRoot = some sf ∧
      sf.speedDisplay = numberToString (mathRound x) ++ "%".toList ∧
      (∀ n : ℤ, mathRound x = .int n →
        sf.throttleValue = clampRange n ∧
        (0 ≤ n → n ≤ 100 → (sf.throttleValue.val : ℤ) = n) ∧
        (n < 0 → sf.throttleValue = 0) ∧ (100 < n → sf.throttleValue = 100)) ∧
      (mathRound x = .negZero → sf.throttleValue = 0) ∧
      (x = .posInf ∨ x = .negInf → sf.throttleValue = 50) ∧
      (e.state = "57".toList → sf.throttleValue = 57 ∧ sf.speedDisplay = "57%".toList) := by
  obtain ⟨hn, sf, hsf, hval, hdisp⟩ := updateCard_throttle c hass base e hc hh he
  refine ⟨hn, sf, hsf, ?_, ?_, ?_, ?_, ?_⟩
  · rw [hdisp, hx, (orZero_facts x hnan).1]
  · intro n hr
    have hv : sf.throttleValue = clampRange n := by
      rw [hval, hx, (orZero_facts x hnan).2, rangeValue_of_mathRound x n hr]
    refine ⟨hv, ?_, ?_, ?_⟩
    · intro h0 h100
      rw [hv]
      exact clampRange_of_mem n h0 h100
    · intro hneg
      rw [hv]
      apply Fin.ext
      simp only [clampRange]
      have : n.toNat = 0 := by omega
      simp [this]
    · intro hbig
      rw [hv]
      apply Fin.ext
      simp only [clampRange]
      have : 100 ≤ n.toNat := by omega
      simp only [Nat.min_eq_right this]
      rfl
  · intro hz
    rw [hval, hx, (orZero_facts x hnan).2, rangeValue_of_negZero x hz]
  · intro hinf
    rw [hval, hx, (orZero_facts x hnan).2]
    rcases hinf with h | h <;> rw [h] <;> rfl
  · intro h57
    rw [h57] at hval hdisp
    exact ⟨by rw [hval, parse_57.2.1], by rw [hdisp, parse_57.2.2]⟩

theorem C4_throttle_position_and_label_witness :
    ∃ sf, (sampleCard "on".toList "57".toList "off".toList)._updateCard.1.shadowRoot =
        some sf ∧
      sf.throttleValue = 57 ∧ sf.speedDisplay = "57%".toList := by
  obtain ⟨_, sf, hsf, _, _, _, _, h57⟩ :=
    C4_throttle_position_and_label (sampleCard "on".toList "57".toList "off".toList)
      (sampleHass "on".toList "57".toList "off".toList) "lionel_train".toList
      ⟨"57".toList⟩ (parseFloat "57".toList) (sampleCard_configured _ _ _).1
      (sampleCard_configured _ _ _).2 (by simp [sampleHass]) rfl (by decide)
  exact ⟨sf, hsf, h57 rfl⟩

/-- C5: on every configured card with a host context whose snapshot holds
`number.<base>_throttle` with a state that does not parse as a number, `_updateCard`
returns normally, gives the slider the value 0 and sets the percentage label to `0%`. -/
theorem C5_unparseable_throttle (c : LionelTrainCard) (hass : Hass) (base : JSString)
    (e : EntityState) (hc : c.Configured base) (hh : c._hass = some hass)
    (he : hass.states ("number.".toList ++ base ++ "_throttle".toList) = some e)
    (hv : parseFloat e.state = .nan) :
    c._updateCard.2 = .normal ∧
    ∃ sf, c._updateCard.1.shadowRoot = some sf ∧
      sf.throttleValue = 0 ∧ sf.speedDisplay = "0%".toList := by
  obtain ⟨hn, sf, hsf, hval, hdisp⟩ := updateCard_throttle c hass base e hc hh he
  rw [hv] at hval hdisp
  exact ⟨hn, sf, hsf, by rw [hval]; decide, by rw [hdisp]; decide⟩

theorem C5_unparseable_throttle_witness :
    parseFloat "not-a-number".toList = .nan ∧
    ∃ sf, (sampleCard "on".toList "not-a-number".toList "off".toList)._updateCard.1.shadowRoot
        = some sf ∧
      sf.throttleValue = 0 ∧ sf.speedDisplay = "0%".toList :=
  ⟨by decide,
    (C5_unparseable_throttle (sampleCard "on".toList "not-a-number".toList "off".toList)
      (sampleHass "on".toList "not-a-number".toList "off".toList) "lionel_train".toList
      ⟨"not-a-number".toList⟩ (sampleCard_configured _ _ _).1 (sampleCard_configured _ _ _).2
      (by simp [sampleHass]) (by decide)).2⟩

/-- C6, as stated, fails: the slider ends at 100, so that a drag towards 150 leaves it at
100, and the one call carries the value 100 and the label reads `100%`. -/
theorem C6_counterexample :
    ((sampleCard "on".toList "57".toList "off".toList).dragThrottle 150).calls =
      (sampleCard "on".toList "57".toList "off".toList).calls ++
        [ServiceCall.mk "number".toList "set_value".toList
          "number.lionel_train_throttle".toList (some (.int 100))] ∧
    JSIntegral.int 100 ≠ JSIntegral.int 150 ∧
    ∃ sf, ((sampleCard "on".toList "57".toList "off".toList).dragThrottle 150).shadowRoot =
        some sf ∧ sf.speedDisplay = "100%".toList := by
  obtain ⟨⟨_, hb, sf, hsf, hl⟩, hh⟩ :=
    sampleCard_configured "on".toList "57".toList "off".toList
  rw [dragThrottle_eq _ _ _ sf 150 hh hb hsf hl]
  exact ⟨rfl, by decide, _, rfl, rfl⟩

/-- C6, amended: on every configured card with a host context, dragging the slider to an
integer `v` from 0 to 100 appends exactly one call to the calls the host has received, with
domain `number`, service `set_value`, entity id `number.<base>_throttle` and value `v`, and
the listener itself sets the percentage label to the decimal numeral of `v` followed by
`%`; for `v = 40` the label is `40%`. -/
theorem C6_drag_throttle (c : LionelTrainCard) (hass : Hass) (base : JSString) (v : ℤ)
    (hc : c.Configured base) (hh : c._hass = some hass) (h0 : 0 ≤ v) (h100 : v ≤ 100) :
    (c.dragThrottle v).calls = c.calls ++
      [ServiceCall.mk "number".toList "set_value".toList
        ("number.".toList ++ base ++ "_throttle".toList) (some (.int v))] ∧
    (c.dragThrottle v)._hass = c._hass ∧
    ∃ sf, (c.dragThrottle v).shadowRoot = some sf ∧
      (sf.throttleValue.val : ℤ) = v ∧
      sf.speedDisplay = decimalDigits v.toNat ++ "%".toList ∧
      (v = 40 → sf.speedDisplay = "40%".toList) := by
  obtain ⟨_, hb, sf, hsf, hl⟩ := hc
  have hv : ((clampRange v).val : ℤ) = v := clampRange_of_mem v h0 h100
  have hn : (clampRange v).val = v.toNat := by omega
  rw [dragThrottle_eq c hass base sf v hh hb hsf hl, hv]
  refine ⟨rfl, rfl, _, rfl, hv, ?_, ?_⟩
  · simp only [hn]
  · intro h40
    subst h40
    have h : decimalDigits (clampRange 40).val ++ "%".toList = "40%".toList := by decide
    exact h

theorem C6_drag_throttle_witness :
    (sampleCard "on".toList "57".toList "off".toList).Configured "lionel_train".toList ∧
    ((sampleCard "on".toList "57".toList "off".toList).dragThrottle 40).calls =
      (sampleCard "on".toList "57".toList "off".toList).calls ++
        [ServiceCall.mk "number".toList "set_value".toList
          ("number.".toList ++ "lionel_train".toList ++ "_throttle".toList)
          (some (.int 40))] :=
  ⟨(sampleCard_configured _ _ _).1,
    (C6_drag_throttle (sampleCard "on".toList "57".toList "off".toList)
      (sampleHass "on".toList "57".toList "off".toList) "lionel_train".toList 40
      (sampleCard_configured _ _ _).1 (sampleCard_configured _ _ _).2 (by decide)
      (by decide)).1⟩

/-- C7: on every configured card with a host context, whatever its surface shows, a click
on EMERGENCY STOP appends exactly one call to the calls the host has received, with
domain `button`, service `press` and entity id `button.<base>_stop`, and it gives the
slider the value 0 and sets the percentage label to `0%`. -/
theorem C7_emergency_stop (c : LionelTrainCard) (hass : Hass) (base : JSString)
    (hc : c.Configured base) (hh : c._hass = some hass) :
    (c.click .btnStop).calls = c.calls ++
      [ServiceCall.mk "button".toList "press".toList
        ("button.".toList ++ base ++ "_stop".toList) none] ∧
    ∃ sf, (c.click .btnStop).shadowRoot = some sf ∧
      sf.throttleValue = 0 ∧ sf.speedDisplay = "0%".toList := by
  obtain ⟨_, hb, sf, hsf, hl⟩ := hc
  rw [(click_eq c hass base sf hh hb hsf hl).1]
  exact ⟨rfl, _, rfl, rfl, rfl⟩

theorem C7_emergency_stop_witness :
    (sampleCard "on".toList "57".toList "off".toList).Configured "lionel_train".toList ∧
    ∃ sf, ((sampleCard "on".toList "57".toList "off".toList).click .btnStop).shadowRoot =
        some sf ∧
      sf.throttleValue = 0 ∧ sf.speedDisplay = "0%".toList :=
  ⟨(sampleCard_configured _ _ _).1,
    (C7_emergency_stop (sampleCard "on".toList "57".toList "off".toList)
      (sampleHass "on".toList "57".toList "off".toList) "lionel_train".toList
      (sampleCard_configured _ _ _).1 (sampleCard_configured _ _ _).2).2⟩

/-- C9: for every card and every two configurations that have an entity, `setConfig` of
the first and then of the second leaves the same card, entity base and rendered surface
included, as `setConfig` of the second alone; the entity base is the one derived from the
second entity, and a reconciliation that follows leaves the same surface for any two
snapshots that agree at the three ids derived from the second entity. -/
theorem C9_reconfigure (c : LionelTrainCard) (c1 c2 : Config) (e1 e2 : JSString)
    (h1 : c1.entity = some e1) (hne1 : e1 ≠ []) (h2 : c2.entity = some e2) (hne2 : e2 ≠ []) :
    (c.setConfig c1).1.setConfig c2 = c.setConfig c2 ∧
    ((c.setConfig c1).1.setConfig c2).1._entityBase =
      some (replace (replace e2 "_throttle".toList []) "number.".toList []) ∧
    ((c.setConfig c1).1.setConfig c2).1.shadowRoot =
      some { Surface.markup (orElse c2.name "Lionel Train".toList) with
             listeners := wiring } ∧
    ∀ hass hass' : Hass,
      AgreeOn (replace (replace e2 "_throttle".toList []) "number.".toList []) hass hass' →
      (((c.setConfig c1).1.setConfig c2).1.setHass hass).1.shadowRoot =
        (((c.setConfig c1).1.setConfig c2).1.setHass hass').1.shadowRoot ∧
      (((c.setConfig c1).1.setConfig c2).1.setHass hass).2 =
        (((c.setConfig c1).1.setConfig c2).1.setHass hass').2 := by
  have hs1 := setConfig_of_entity c c1 e1 h1 hne1
  have hs12 := setConfig_of_entity (c.setConfig c1).1 c2 e2 h2 hne2
  have hs2 := setConfig_of_entity c c2 e2 h2 hne2
  have heq : (c.setConfig c1).1.setConfig c2 = c.setConfig c2 := by
    rw [hs12, hs2, hs1]
  refine ⟨heq, by rw [hs12], by rw [hs12], ?_⟩
  intro hass hass' hag
  obtain ⟨ha, hb, hc⟩ := hag
  have hcfg := configured_setConfig (c.setConfig c1).1 c2 e2 h2 hne2
  obtain ⟨hcf, hbase, sf, hsf, _⟩ := hcfg
  have u1 := updateCard_eq { ((c.setConfig c1).1.setConfig c2).1 with _hass := some hass }
    hass _ sf rfl hcf hbase hsf
  have u2 := updateCard_eq { ((c.setConfig c1).1.setConfig c2).1 with _hass := some hass' }
    hass' _ sf rfl hcf hbase hsf
  rw [setHass, setHass, u1, u2, ha, hb, hc]
  exact ⟨rfl, rfl⟩

theorem C9_reconfigure_witness :
    (LionelTrainCard.new.setConfig
        ⟨some "number.old_throttle".toList, some "Old".toList, []⟩).1.setConfig
        LionelTrainCard.getStubConfig =
      LionelTrainCard.new.setConfig LionelTrainCard.getStubConfig :=
  (C9_reconfigure LionelTrainCard.new
    ⟨some "number.old_throttle".toList, some "Old".toList, []⟩
    LionelTrainCard.getStubConfig "number.old_throttle".toList
    "number.lionel_train_throttle".toList rfl (by decide) rfl (by decide)).1

/-! ## The editor -/

namespace LionelTrainCardEditor

/-- The state of the editor after `setConfig` on a reference to a configuration. -/
theorem setConfig_eq (ed : LionelTrainCardEditor) (r : Nat) (c : Config)
    (hr : ed.objects[r]? = some c) :
    ed.setConfig r =
      ({ ed with
         _config := some r
         form := some
           { entityValue := orElse c.entity []
             nameValue := orElse c.name []
             listeners := [(.entity, .entityChange), (.name, .nameChange)] } }, .normal) := by
  simp [setConfig, _render, config, hr]

end LionelTrainCardEditor

/-- C8: for every configuration object `c` given to the editor with `setConfig` and every
string `e`, editing the entity field to `e` dispatches exactly one event, of type
`config-changed`, bubbling and composed, whose detail refers to a new object with
`entity = e` and with `name` and every other property as in `c`; the editor stores the new
object, and the object `c` and all other objects are as they were. -/
theorem C8_edit_entity (ed : LionelTrainCardEditor) (r : Nat) (c : Config) (e : JSString)
    (hr : ed.objects[r]? = some c) :
    ((ed.setConfig r).1.editEntity e).dispatched = (ed.setConfig r).1.dispatched ++
      [CustomEvent.mk "config-changed".toList ed.objects.length true true] ∧
    ((ed.setConfig r).1.editEntity e).objects[ed.objects.length]? =
      some { entity := some e, name := c.name, rest := c.rest } ∧
    ((ed.setConfig r).1.editEntity e)._config = some ed.objects.length ∧
    ((ed.setConfig r).1.editEntity e).objects[r]? = some c ∧
    ((ed.setConfig r).1.editEntity e).objects =
      ed.objects ++ [{ entity := some e, name := c.name, rest := c.rest }] ∧
    ed.objects.length ≠ r := by
  have hlt : r < ed.objects.length := (List.getElem?_eq_some_iff.mp hr).1
  rw [LionelTrainCardEditor.setConfig_eq ed r c hr]
  simp [LionelTrainCardEditor.editEntity, LionelTrainCardEditor.dispatchChange,
    LionelTrainCardEditor.runListener, LionelTrainCardEditor._fireEvent,
    LionelTrainCardEditor.spreadConfig, LionelTrainCardEditor.config, hr,
    List.getElem?_append_left hlt]
  omega

theorem C8_edit_entity_witness :
    ((((LionelTrainCardEditor.mk [LionelTrainCard.getStubConfig] none none []).setConfig
        0).1.editEntity "number.express_throttle".toList).objects[1]? =
      some { entity := some "number.express_throttle".toList,
             name := some "Lionel Train".toList, rest := [] }) :=
  (C8_edit_entity (LionelTrainCardEditor.mk [LionelTrainCard.getStubConfig] none none []) 0
    LionelTrainCard.getStubConfig "number.express_throttle".toList rfl).2.1

end LionelCard
